import Mathlib

/-!
Verification of the blob-metadata reporting scripts.

Shallow embedding of the data model and operations of the repository:
CSV report rows, the consistency-check scripts
(`check_column_consistency.py`, `check_table_consistency.py`,
`validate_table_columns.py`), the scanner (`datafeed_scanner.py`),
the blob search (`search_blob.py`), the folder listing
(`dfinsidefolder.py`) and the token credential (`auth_helper.py`).
Pandas dataframes are embedded as lists of records, pandas/python `set`
as `Finset String`, missing CSV cells (NaN) as `Option`.
-/

/-- One row of the scanner report CSV
(`datafeed_report_.csv`, one row per column).
`column_name` is `Option` because `check_column_consistency.py` applies
`dropna` to the `Column_Name` series, so a row may lack that cell. -/
structure CsvRow where
  path : String
  source_type : String
  sheet_name : String
  table_name : String
  column_name : Option String
deriving DecidableEq, Repr

/-- Constant `MASTER_PATH_1` from `check_table_consistency.py` and
`check_column_consistency.py`. -/
def MASTER_PATH_1 : String :=
  "0000_test_parquet/100007-16_Showcase/Report Documentation/Datafeed"

/-- Constant `MASTER_PATH_2` from the same two scripts. -/
def MASTER_PATH_2 : String :=
  "999999_WeitereKDdec/128019_18_Ruegenwalder_Welle4/Report Documentation/Datafeed"

namespace CheckColumnConsistency

/-- Embeds `table_df = df[df['Table_Name'] == table_name]`. -/
def tableRows (df : List CsvRow) (t : String) : List CsvRow :=
  df.filter (fun r => r.table_name = t)

/-- Embeds `set(rows['Column_Name'].dropna())`. -/
def columnSet (rows : List CsvRow) : Finset String :=
  (rows.filterMap (fun r => r.column_name)).toFinset

/-- Column set of one master path within a table
(`set(master_i_rows['Column_Name'].dropna())`; the `if not empty` guard
in the script is redundant since the set of an empty series is empty). -/
def masterCols (df : List CsvRow) (t master : String) : Finset String :=
  columnSet ((tableRows df t).filter (fun r => r.path = master))

/-- Embeds `master_column_set = master_1_cols.union(master_2_cols)`. -/
def master_column_set (df : List CsvRow) (t : String) : Finset String :=
  masterCols df t MASTER_PATH_1 ∪ masterCols df t MASTER_PATH_2

/-- The group of `table_df.groupby('Path')` at path `p`. -/
def pathGroup (df : List CsvRow) (t p : String) : List CsvRow :=
  (tableRows df t).filter (fun r => r.path = p)

/-- One entry of `path_results`. -/
structure PathResult where
  columns : Finset String
  missing : Finset String
  extra : Finset String
  is_consistent : Bool

/-- Body of the `for path, group in table_df.groupby('Path')` loop:
`missing = master_column_set - path_cols`,
`extra = path_cols - master_column_set`,
`is_consistent = len(missing) == 0 and len(extra) == 0`. -/
def analyzePath (df : List CsvRow) (t p : String) : PathResult :=
  let path_cols := columnSet (pathGroup df t p)
  let missing_cols := master_column_set df t \ path_cols
  let extra_cols := path_cols \ master_column_set df t
  { columns := path_cols
    missing := missing_cols
    extra := extra_cols
    is_consistent := (missing_cols.card == 0) && (extra_cols.card == 0) }

end CheckColumnConsistency

namespace CheckTableConsistency

/-- Embeds `set(df[df['Path'] == p]['Table_Name'].unique())` (the
`if p in df['Path'].values else set()` guard is redundant: filtering an
absent path already yields the empty set). -/
def pathTables (df : List CsvRow) (p : String) : Finset String :=
  ((df.filter (fun r => r.path = p)).map (fun r => r.table_name)).toFinset

/-- Embeds `master_table_set = master_path_1_tables.union(master_path_2_tables)`. -/
def master_table_set (df : List CsvRow) : Finset String :=
  pathTables df MASTER_PATH_1 ∪ pathTables df MASTER_PATH_2

/-- Embeds `missing_tables = master_table_set - path_tables` in the
`missing_data` loop. -/
def missing_tables (df : List CsvRow) (p : String) : Finset String :=
  master_table_set df \ pathTables df p

/-- Embeds `extra_tables = path_tables - master_table_set` in the
`missing_data` loop. -/
def extra_tables (df : List CsvRow) (p : String) : Finset String :=
  pathTables df p \ master_table_set df

/-- Condition of the `complete_paths` loop:
`master_table_set.issubset(path_tables) and
len(path_tables - master_table_set) == 0`. -/
def isCompletePath (df : List CsvRow) (p : String) : Bool :=
  decide (master_table_set df ⊆ pathTables df p) &&
    ((pathTables df p \ master_table_set df).card == 0)

end CheckTableConsistency

/-- Code-point lexicographic order on strings, the order Python `sorted`
uses on `str` values: compare the character sequences. -/
def strLe (a b : String) : Prop :=
  a.data ≤ b.data

instance : DecidableRel strLe :=
  fun a b => inferInstanceAs (Decidable (a.data ≤ b.data))

instance : IsTotal String strLe :=
  ⟨fun a b => le_total a.data b.data⟩

instance : IsTrans String strLe :=
  ⟨fun _ _ _ h1 h2 => le_trans h1 h2⟩

/-- Python `str.lower()`, on the character sequence of the string
(`Char.toLower` lower-cases the ASCII range, which covers every marker
the scripts compare against). -/
def toLowerStr (s : String) : String :=
  String.mk (s.data.map Char.toLower)

/-- Python `str.split(sep)` for a one-character separator, on the
character sequence: `splitOnCharAux sep cs` is the list of chunks of
`cs` between occurrences of `sep` (always nonempty, like Python's
result). -/
def splitOnCharAux (sep : Char) : List Char → List (List Char)
  | [] => [[]]
  | c :: cs =>
    match splitOnCharAux sep cs with
    | [] => [[]]
    | r :: rs => if c = sep then [] :: r :: rs else (c :: r) :: rs

/-- Python `s.split(sep)` for a one-character separator. -/
def splitOnChar (sep : Char) (s : String) : List String :=
  (splitOnCharAux sep s.data).map String.mk

/-- Python `sep.join(parts)` for a one-character separator, on
character sequences. -/
def intercalateChar (sep : Char) : List (List Char) → List Char
  | [] => []
  | [p] => p
  | p :: ps => p ++ sep :: intercalateChar sep ps

/-- Python `+` on strings. -/
def strConcat (a b : String) : String :=
  String.mk (a.data ++ b.data)

/-- Python `'/'.join(parts)`. -/
def joinSlash (parts : List String) : String :=
  String.mk (intercalateChar '/' (parts.map String.data))

namespace DatafeedScanner

/-- Body of the per-blob loop of `scan_for_datafeed_folders`: split the
blob name on `/`, look for the first segment whose lower-casing is
`datafeed`, and return the join of the segments up to and including it
with a trailing `/`; `none` when no segment matches. -/
def datafeedFolderOf (blob_name : String) : Option String :=
  let path_parts := splitOnChar '/' blob_name
  match path_parts.findIdx? (fun part => toLowerStr part == "datafeed") with
  | some i => some (strConcat (joinSlash (path_parts.take (i + 1))) "/")
  | none => none

/-- Embeds `scan_for_datafeed_folders` (success path): accumulate the prefixes
in a set (`datafeed_folders.add`), then `sorted(list(...))`. -/
def scan_for_datafeed_folders (blob_names : List String) : List String :=
  ((blob_names.filterMap datafeedFolderOf).dedup).insertionSort strLe

end DatafeedScanner

/-- Whether `needle` matches `hay` at its front, character by character
(Python slice comparison `hay[:len(needle)] == needle`). -/
def frontMatches : List Char → List Char → Bool
  | [], _ => true
  | _ :: _, [] => false
  | a :: as, b :: bs => (a == b) && frontMatches as bs

/-- Python `s.startswith(t)`. -/
def startsWithStr (s t : String) : Bool :=
  frontMatches t.data s.data

/-- Python `s.endswith(t)`. -/
def endsWithStr (s t : String) : Bool :=
  frontMatches t.data.reverse s.data.reverse

/-- A blob of the listing: only its name and size matter to the
scripts. -/
structure Blob where
  name : String
  size : Nat
deriving DecidableEq

/-- The SDK-specific exception type the scripts catch (`AzureError`);
only its printable message matters. -/
structure AzureError where
  message : String
deriving DecidableEq

/-- Outcome of running one operation of a script: a normal return
(recording whether the error-branch message was printed) or a process
exit via `sys.exit`. -/
inductive Outcome (α : Type) where
  | returned (printed_error : Bool) (value : α)
  | exited (printed_error : Bool) (code : Nat)
deriving DecidableEq

namespace DatafeedScanner

/-- Embeds `scan_for_datafeed_folders` with its exception handler: the blob
listing either succeeds with a list of names or raises `AzureError`;
on error the method prints `Error scanning blobs` and returns `[]`. -/
def scan_for_datafeed_folders_run (listing : Except AzureError (List String)) :
    Outcome (List String) :=
  match listing with
  | Except.ok names => Outcome.returned false (scan_for_datafeed_folders names)
  | Except.error _ => Outcome.returned true []

end DatafeedScanner

namespace DfInsideFolder

/-- Embeds `Path(base).suffix` of a single path component: the text from the
last dot on, provided that dot is neither the first nor the last
character; empty otherwise. -/
def path_suffix (base : String) : String :=
  let rev := base.data.reverse
  let ext := rev.takeWhile (fun c => c ≠ '.')
  if ext.length = rev.length then ""
  else if ext.length = 0 then ""
  else if rev.drop (ext.length + 1) = [] then ""
  else String.mk ('.' :: ext.reverse)

/-- Embeds `AzureFolderDataFrame.get_file_type`: lower-cased extension of the
final path component without its dot, or `unknown` when there is no
extension. -/
def get_file_type (filename : String) : String :=
  let ext := toLowerStr (path_suffix ((splitOnChar '/' filename).getLastD ""))
  if ext.data.isEmpty then "unknown" else String.mk (ext.data.drop 1)

/-- One row of the DataFrame built by `create_dataframe`. The
`Size (MB)` column is a rounded floating-point quotient; the record
keeps the exact byte count `blob.size` it is computed from. -/
structure FileRecord where
  name : String
  file_type : String
  size_bytes : Nat
  full_path : String
deriving DecidableEq

/-- The record appended for one kept blob (`Name` is the final path
component; kept blobs never end in `/`). -/
def toFileRecord (b : Blob) : FileRecord :=
  { name := (splitOnChar '/' b.name).getLastD ""
    file_type := get_file_type b.name
    size_bytes := b.size
    full_path := b.name }

/-- Row order of `create_dataframe`: `df.sort_values('Name')`. -/
def fileRecordLe (a b : FileRecord) : Prop :=
  strLe a.name b.name

instance : DecidableRel fileRecordLe :=
  fun a b => inferInstanceAs (Decidable (strLe a.name b.name))

/-- Embeds `create_dataframe` with its exception handler: skip folder markers
(`blob.size == 0 or blob.name.endswith('/')`), build one record per
remaining blob, sort by `Name`; on `AzureError` print
`Error fetching files` and return an empty DataFrame. -/
def create_dataframe (listing : Except AzureError (List Blob)) :
    Outcome (List FileRecord) :=
  match listing with
  | Except.ok blobs =>
    Outcome.returned false
      (((blobs.filter
          (fun b => !((b.size == 0) || endsWithStr b.name "/"))).map
            toFileRecord).insertionSort fileRecordLe)
  | Except.error _ => Outcome.returned true []

/-- Embeds `AzureFolderDataFrame.__init__` with its exception handlers: the
connection test either succeeds or raises; on `AzureError` it prints
`Azure authentication error` and calls `sys.exit(1)`. -/
def init_outcome (connect : Except AzureError Unit) : Outcome Unit :=
  match connect with
  | Except.ok _ => Outcome.returned false ()
  | Except.error _ => Outcome.exited true 1

end DfInsideFolder

namespace SearchBlob

/-- The two search modes offered by `get_search_mode`. -/
inductive SearchMode
  | starts_with
  | contains
deriving DecidableEq

/-- The three type filters offered by `get_type_filter`. -/
inductive TypeFilter
  | all
  | files
  | folders
deriving DecidableEq

/-- Embeds `filename = blob.name.split('/')[-1]` (the split of a string is
never empty, so the default of `getLastD` is never used). -/
def filename (b : Blob) : String :=
  (splitOnChar '/' b.name).getLastD ""

/-- Embeds `is_folder = blob.size == 0 and blob.name.endswith('/')`. -/
def is_folder (b : Blob) : Bool :=
  (b.size == 0) && endsWithStr b.name "/"

/-- Python substring test `needle in hay` on character sequences. -/
def hasSubstr (needle : List Char) : List Char → Bool
  | [] => frontMatches needle []
  | b :: bs => frontMatches needle (b :: bs) || hasSubstr needle bs

/-- The `matches` flag of the loop body: case-insensitive starts-with
or substring containment of the search term in the filename. -/
def modeMatches (mode : SearchMode) (term fname : String) : Bool :=
  match mode with
  | SearchMode.starts_with => startsWithStr (toLowerStr fname) (toLowerStr term)
  | SearchMode.contains =>
    hasSubstr (toLowerStr term).data (toLowerStr fname).data

/-- The type filter of the loop body: `files` skips folders, `folders`
skips non-folders, `all` keeps everything. -/
def typeKeeps (tf : TypeFilter) (b : Blob) : Bool :=
  match tf with
  | TypeFilter.all => true
  | TypeFilter.files => !(is_folder b)
  | TypeFilter.folders => is_folder b

/-- One entry of `results` (its floating-point `size_mb` is computed
from `blob.size`, kept here in bytes). -/
structure SearchResult where
  name : String
  path : String
  size_bytes : Nat
  is_folder : Bool
deriving DecidableEq

/-- The dictionary appended to `results` for a kept blob. -/
def toSearchResult (b : Blob) : SearchResult :=
  { name := filename b
    path := b.name
    size_bytes := b.size
    is_folder := is_folder b }

/-- Embeds `search_blobs`: one pass over the listing, appending a result for
every blob whose final path segment matches the term under the chosen
mode and which passes the type filter, in listing order. -/
def search_blobs (blobs : List Blob) (term : String) (mode : SearchMode)
    (tf : TypeFilter) : List SearchResult :=
  (blobs.filter
    (fun b => modeMatches mode term (filename b) && typeKeeps tf b)).map
    toSearchResult

/-- The selection predicate in the words of the claim: the final path
segment matches the term under the chosen mode (case-insensitive
starts-with, or containment anywhere), and the blob's kind matches the
filter, a folder being a blob of size 0 whose name ends with `/`. -/
def claimSelects (term : String) (mode : SearchMode) (tf : TypeFilter)
    (b : Blob) : Prop :=
  (match mode with
   | SearchMode.starts_with =>
     ∃ rest : List Char,
       (toLowerStr (filename b)).data = (toLowerStr term).data ++ rest
   | SearchMode.contains =>
     ∃ pre post : List Char,
       (toLowerStr (filename b)).data =
         pre ++ (toLowerStr term).data ++ post) ∧
  (match tf with
   | TypeFilter.all => True
   | TypeFilter.files =>
     ¬(b.size = 0 ∧ ∃ first : List Char, b.name.data = first ++ ['/'])
   | TypeFilter.folders =>
     b.size = 0 ∧ ∃ first : List Char, b.name.data = first ++ ['/'])

end SearchBlob

/-- Python `str.strip()`: drop leading and trailing whitespace. -/
def stripStr (s : String) : String :=
  String.mk
    (((s.data.dropWhile Char.isWhitespace).reverse.dropWhile
      Char.isWhitespace).reverse)

/-- Python `s.rstrip('/')`: drop trailing slashes. -/
def rstripSlashes (s : String) : String :=
  String.mk ((s.data.reverse.dropWhile (fun c => c = '/')).reverse)

namespace ValidateTableColumns

/-- Embeds `parse_columns`: `set()` when the cell is NaN (`none` here) or the
string is empty, else the set of the comma-separated pieces with
whitespace stripped. -/
def parse_columns (column_string : Option String) : Finset String :=
  match column_string with
  | none => ∅
  | some s =>
    if s.data.isEmpty then ∅
    else ((splitOnChar ',' s).map stripStr).toFinset

/-- One row of the CSV as `validate_table_columns` reads it: a `Path`,
a `Table_Name` and a single comma-separated `Columns` cell (which may
be NaN). -/
structure VRow where
  path : String
  table_name : String
  columns : Option String
deriving DecidableEq

/-- The test-path filter:
`df = df[~df['Path'].str.startswith('0000_test_parquet/')]`. -/
def filteredRows (df : List VRow) : List VRow :=
  df.filter (fun r => !(startsWithStr r.path "0000_test_parquet/"))

/-- Embeds `table_data[table_name]`: the instances of one table among the
filtered rows, in row order. -/
def instancesOf (df : List VRow) (t : String) : List VRow :=
  (filteredRows df).filter (fun r => r.table_name = t)

/-- Embeds `all_column_sets`: the parsed column set of each instance. -/
def instanceSets (df : List VRow) (t : String) : List (Finset String) :=
  (instancesOf df t).map (fun r => parse_columns r.columns)

/-- Embeds `common_columns = set.intersection(*all_column_sets)` (the script
only reaches this with at least one instance; the empty case is mapped
to the empty set). -/
def common_columns (df : List VRow) (t : String) : Finset String :=
  match instanceSets df t with
  | [] => ∅
  | s :: rest => rest.foldl (fun a b => a ∩ b) s

/-- Embeds `all_columns = set.union(*all_column_sets)`. -/
def all_columns (df : List VRow) (t : String) : Finset String :=
  match instanceSets df t with
  | [] => ∅
  | s :: rest => rest.foldl (fun a b => a ∪ b) s

/-- The classification of one table: consistent when it has exactly one
instance, or when the common columns equal all columns. -/
def isConsistentTable (df : List VRow) (t : String) : Bool :=
  ((instancesOf df t).length == 1) ||
    decide (common_columns df t = all_columns df t)

/-- Embeds `missing = common_columns - columns` for one instance of an
inconsistent table. -/
def instanceMissing (df : List VRow) (t : String) (r : VRow) : Finset String :=
  common_columns df t \ parse_columns r.columns

/-- Embeds `extra = columns - common_columns` for one instance. -/
def instanceExtra (df : List VRow) (t : String) (r : VRow) : Finset String :=
  parse_columns r.columns \ common_columns df t

/-- A pandas row as a field lookup: the cell of a named field, `none`
standing for NaN. -/
def rowColumnSet (row : String → Option String) : Finset String :=
  parse_columns (row "Columns")

end ValidateTableColumns

namespace DatafeedScanner

/-- The dictionary appended per extracted column by
`analyze_excel_file_with_tables`, as its ordered field/value pairs. -/
def excelRecord (datafeed_path sheet_name table_name column_name : String) :
    List (String × String) :=
  [("Path", rstripSlashes datafeed_path),
   ("Source_Type", "Excel"),
   ("Sheet_Name", sheet_name),
   ("Table_Name", table_name),
   ("Column_Name", column_name)]

/-- The dictionary appended per extracted column by
`analyze_parquet_file`. -/
def parquetRecord (datafeed_path filename column_name : String) :
    List (String × String) :=
  [("Path", rstripSlashes datafeed_path),
   ("Source_Type", "Parquet"),
   ("Sheet_Name", ""),
   ("Table_Name", filename),
   ("Column_Name", column_name)]

/-- A named Excel table: its name and the first-row cell values of its
range; `none` stands for an empty or falsy cell, which the
`if cell_value:` guard skips. -/
structure ExcelTable where
  table_name : String
  header_cells : List (Option String)
deriving DecidableEq

/-- One worksheet: its name and its named tables (a sheet without
named tables contributes nothing). -/
structure Sheet where
  sheet_name : String
  tables : List ExcelTable
deriving DecidableEq

/-- Embeds `analyze_excel_file_with_tables`: one record per kept header cell
of every named table of every sheet. -/
def analyze_excel_file_with_tables (sheets : List Sheet)
    (datafeed_path : String) : List (List (String × String)) :=
  sheets.flatMap fun ws =>
    ws.tables.flatMap fun tbl =>
      (tbl.header_cells.filterMap id).map fun column_name =>
        excelRecord datafeed_path ws.sheet_name tbl.table_name column_name

/-- Embeds `analyze_parquet_file`: `download` is the column list read from the
downloaded file (`none` when `download_blob_to_temp` failed, in which
case the function returns no records); one record per column, with the
blob's final path segment as `Table_Name`. -/
def analyze_parquet_file (download : Option (List String))
    (parquet_blob_name datafeed_path : String) :
    List (List (String × String)) :=
  match download with
  | none => []
  | some cols =>
    cols.map fun column_name =>
      parquetRecord datafeed_path
        ((splitOnChar '/' parquet_blob_name).getLastD "") column_name

/-- One parquet blob of a Datafeed folder together with the outcome of
downloading and reading it. -/
structure ParquetDownload where
  blob_name : String
  columns : Option (List String)
deriving DecidableEq

/-- One Datafeed folder as `generate_report` sees it: the sheets of its
DimManager workbook (`none` when no such file was found or its download
failed) and its parquet files. -/
structure FolderData where
  path : String
  excel : Option (List Sheet)
  parquets : List ParquetDownload
deriving DecidableEq

/-- The record accumulation of `generate_report`: per folder, the Excel
records then the parquet records, extended onto `all_results`; these
rows are what `export_to_csv` writes. -/
def generate_report_rows (folders : List FolderData) :
    List (List (String × String)) :=
  folders.flatMap fun f =>
    (match f.excel with
     | some sheets => analyze_excel_file_with_tables sheets f.path
     | none => []) ++
    f.parquets.flatMap fun pq =>
      analyze_parquet_file pq.columns pq.blob_name f.path

end DatafeedScanner

namespace CheckTableConsistency

/-- The duplicate-detection pass: grouping by `Path` and counting
`Table_Name` occurrences, some table appears more than once in some
path group. -/
def inconsistencies_found (df : List CsvRow) : Bool :=
  df.any fun r =>
    decide (1 < ((df.filter (fun x => x.path = r.path)).filter
      (fun x => x.table_name = r.table_name)).length)

/-- The status box of the HTML report, a constant fragment of the
`html_content` f-string (written unconditionally, before the
master-path and missing-tables sections). -/
def status_box_html : String :=
  "<div class=\"section\"><div class=\"status-box\"><h3>✅ Consistency Check: PASSED</h3><p>No table name duplicates found. Each table appears only once per path.</p></div></div>"

/-- The part of `html_content` before the status box: document head and
the summary cards (static CSS and markup abbreviated; the interpolated
values are kept). -/
def html_head_part (df : List CsvRow) : String :=
  strConcat
    (strConcat
      "<html><head><title>Table Consistency Report</title></head><body><div class=\"summary-card\"><div class=\"number\">"
      (Nat.repr df.length))
    "</div><div class=\"label\">Total Rows</div></div>"

/-- The part of `html_content` after the status box: master-path
comparison, missing/extra tables per path, complete paths and footer
(markup abbreviated; the interpolated master table count is kept). -/
def html_tail_part (df : List CsvRow) : String :=
  strConcat
    (strConcat "<div class=\"section\"><h2>Master Path Comparison</h2>"
      (Nat.repr (master_table_set df).card))
    "</div></body></html>"

/-- Embeds `html_content`: the head, then the status box, then the rest; the
status box does not depend on the dataframe. -/
def html_content (df : List CsvRow) : String :=
  strConcat (strConcat (html_head_part df) status_box_html)
    (html_tail_part df)

end CheckTableConsistency

/-- Proposition: `needle` occurs as a contiguous substring of `hay`. -/
def containsText (hay needle : String) : Prop :=
  ∃ pre post : List Char, hay.data = pre ++ needle.data ++ post

namespace AuthHelper

/-- Embedding of `azure.core.credentials.AccessToken`: a token string and a Unix
expiry timestamp. -/
structure AccessToken where
  token : String
  expires_on : Int
deriving DecidableEq

/-- The state of a `UserTokenCredential` instance after `__init__`. -/
structure UserTokenCredential where
  access_token : String
  expires_on : Int
deriving DecidableEq

/-- Embeds `UserTokenCredential.__init__`: `now_ts` stands for
`int(datetime.now().timestamp())` at construction time; when no
`expires_on` is supplied the expiry defaults to one hour
(3600 seconds) later. -/
def mkUserTokenCredential (access_token : String) (expires_on : Option Int)
    (now_ts : Int) : UserTokenCredential :=
  { access_token := access_token
    expires_on :=
      match expires_on with
      | some e => e
      | none => now_ts + 3600 }

/-- Embeds `UserTokenCredential.get_token(*scopes, **kwargs)`: returns
`AccessToken(self.access_token, self.expires_on)`, ignoring both
arguments. -/
def get_token (cred : UserTokenCredential) (scopes : List String)
    (kwargs : List (String × String)) : AccessToken :=
  { token := cred.access_token, expires_on := cred.expires_on }

end AuthHelper

/-- Lemma: `List.findIdx?` finds the index right after the clean part: if no
element of `pre` satisfies `p` and `x` does, the first hit in
`pre ++ x :: post` is at index `k + pre.length` when counting from `k`. -/
theorem findIdx?_first_hit {α : Type} (p : α → Bool) (pre : List α) (x : α)
    (post : List α) (hx : p x = true) (hpre : ∀ y ∈ pre, p y = false) :
    ∀ k, List.findIdx? p (pre ++ x :: post) k = some (k + pre.length) := by
  induction pre with
  | nil => intro k; simp [List.findIdx?, hx]
  | cons a l ih =>
    intro k
    have ha : p a = false := hpre a (List.mem_cons_self a l)
    have hl : ∀ y ∈ l, p y = false := fun y hy => hpre y (List.mem_cons_of_mem a hy)
    simp only [List.cons_append, List.findIdx?, ha, if_neg Bool.false_ne_true,
      List.append_eq]
    rw [ih hl (k + 1)]
    simp only [List.length_cons]
    congr 1
    omega

/-- Lemma: `List.findIdx?` returns `none` when no element satisfies `p`. -/
theorem findIdx?_no_hit {α : Type} (p : α → Bool) (l : List α)
    (h : ∀ y ∈ l, p y = false) :
    ∀ k, List.findIdx? p l k = none := by
  induction l with
  | nil => intro k; simp [List.findIdx?]
  | cons a l ih =>
    intro k
    have ha : p a = false := h a (List.mem_cons_self a l)
    have hl : ∀ y ∈ l, p y = false := fun y hy => h y (List.mem_cons_of_mem a hy)
    simp only [List.findIdx?, ha, if_neg Bool.false_ne_true]
    exact ih hl (k + 1)

/-- Lemma: `frontMatches` decides the existence of a decomposition
`hay = needle ++ rest`. -/
theorem frontMatches_iff (needle hay : List Char) :
    frontMatches needle hay = true ↔ ∃ rest, hay = needle ++ rest := by
  induction needle generalizing hay with
  | nil => simp [frontMatches]
  | cons a as ih =>
    cases hay with
    | nil => simp [frontMatches]
    | cons b bs =>
      simp only [frontMatches, Bool.and_eq_true, beq_iff_eq, ih,
        List.cons_append, List.cons.injEq]
      constructor
      · rintro ⟨rfl, rest, rfl⟩
        exact ⟨rest, rfl, rfl⟩
      · rintro ⟨rest, rfl, rfl⟩
        exact ⟨rfl, rest, rfl⟩

/-- Lemma: `hasSubstr` decides the existence of a decomposition
`hay = pre ++ needle ++ post`. -/
theorem hasSubstr_iff (needle hay : List Char) :
    SearchBlob.hasSubstr needle hay = true ↔
      ∃ pre post, hay = pre ++ needle ++ post := by
  induction hay with
  | nil =>
    simp only [SearchBlob.hasSubstr, frontMatches_iff]
    constructor
    · rintro ⟨rest, h⟩
      exact ⟨[], rest, by simpa using h⟩
    · rintro ⟨pre, post, h⟩
      rcases List.append_eq_nil.mp (List.append_eq_nil.mp h.symm).1 with ⟨_, h2⟩
      exact ⟨post, by simp [h2, (List.append_eq_nil.mp h.symm).2.symm]⟩
  | cons b bs ih =>
    simp only [SearchBlob.hasSubstr, Bool.or_eq_true, frontMatches_iff, ih]
    constructor
    · rintro (⟨rest, h⟩ | ⟨pre, post, h⟩)
      · exact ⟨[], rest, by simpa using h⟩
      · exact ⟨b :: pre, post, by simp [h]⟩
    · rintro ⟨pre, post, h⟩
      cases pre with
      | nil => exact Or.inl ⟨post, by simpa using h⟩
      | cons p ps =>
        rcases List.cons.injEq .. ▸ h with ⟨_, htl⟩
        exact Or.inr ⟨ps, post, by simpa using htl⟩

/-- Lemma: `endsWithStr` decides the existence of a decomposition
`s = first ++ t`. -/
theorem endsWithStr_iff (s t : String) :
    endsWithStr s t = true ↔ ∃ first, s.data = first ++ t.data := by
  rw [endsWithStr, frontMatches_iff]
  constructor
  · rintro ⟨rest, h⟩
    refine ⟨rest.reverse, ?_⟩
    have := congrArg List.reverse h
    simpa [List.reverse_append] using this
  · rintro ⟨first, h⟩
    refine ⟨first.reverse, ?_⟩
    have := congrArg List.reverse h
    simpa [List.reverse_append] using this

/-- C1: In check_column_consistency.py, for every (Table_Name, Path)
group, the master column set is the union of the Column_Name sets of the
two master paths restricted to that table, the missing set is that union
minus the group's column set, the extra set is the group's column set
minus the union, and the path is consistent iff both are empty. -/
theorem check_column_consistency_correct (df : List CsvRow) (t p c : String) :
    (c ∈ CheckColumnConsistency.master_column_set df t ↔
      (∃ r ∈ CheckColumnConsistency.tableRows df t,
        r.path = MASTER_PATH_1 ∧ r.column_name = some c) ∨
      (∃ r ∈ CheckColumnConsistency.tableRows df t,
        r.path = MASTER_PATH_2 ∧ r.column_name = some c)) ∧
    (c ∈ (CheckColumnConsistency.analyzePath df t p).missing ↔
      c ∈ CheckColumnConsistency.master_column_set df t ∧
      c ∉ CheckColumnConsistency.columnSet (CheckColumnConsistency.pathGroup df t p)) ∧
    (c ∈ (CheckColumnConsistency.analyzePath df t p).extra ↔
      c ∈ CheckColumnConsistency.columnSet (CheckColumnConsistency.pathGroup df t p) ∧
      c ∉ CheckColumnConsistency.master_column_set df t) ∧
    ((CheckColumnConsistency.analyzePath df t p).is_consistent = true ↔
      (CheckColumnConsistency.analyzePath df t p).missing = ∅ ∧
      (CheckColumnConsistency.analyzePath df t p).extra = ∅) := by
  refine ⟨?_, ?_, ?_, ?_⟩
  · simp [CheckColumnConsistency.master_column_set, CheckColumnConsistency.masterCols,
      CheckColumnConsistency.columnSet, List.mem_filterMap, List.mem_filter,
      and_assoc]
  · simp [CheckColumnConsistency.analyzePath]
  · simp [CheckColumnConsistency.analyzePath]
  · simp [CheckColumnConsistency.analyzePath, Finset.card_eq_zero]

/-- C2: In check_table_consistency.py, the master table set is the union
of the table sets of the two master paths; per path, missing tables are
the master set minus the path's table set, extra tables the path's table
set minus the master set, and a path is complete iff its table set
equals the master set. -/
theorem check_table_consistency_correct (df : List CsvRow) (p t : String) :
    (t ∈ CheckTableConsistency.master_table_set df ↔
      (∃ r ∈ df, r.path = MASTER_PATH_1 ∧ r.table_name = t) ∨
      (∃ r ∈ df, r.path = MASTER_PATH_2 ∧ r.table_name = t)) ∧
    (t ∈ CheckTableConsistency.missing_tables df p ↔
      t ∈ CheckTableConsistency.master_table_set df ∧
      t ∉ CheckTableConsistency.pathTables df p) ∧
    (t ∈ CheckTableConsistency.extra_tables df p ↔
      t ∈ CheckTableConsistency.pathTables df p ∧
      t ∉ CheckTableConsistency.master_table_set df) ∧
    (CheckTableConsistency.isCompletePath df p = true ↔
      CheckTableConsistency.pathTables df p =
        CheckTableConsistency.master_table_set df) := by
  refine ⟨?_, ?_, ?_, ?_⟩
  · simp [CheckTableConsistency.master_table_set, CheckTableConsistency.pathTables,
      List.mem_filter, and_assoc]
  · simp [CheckTableConsistency.missing_tables]
  · simp [CheckTableConsistency.extra_tables]
  · simp [CheckTableConsistency.isCompletePath, Finset.card_eq_zero,
      Finset.sdiff_eq_empty_iff_subset]
    constructor
    · rintro ⟨h1, h2⟩
      exact Finset.Subset.antisymm h2 h1
    · intro h
      exact ⟨h.ge, h.le⟩

/-- Taking one element past an initial segment keeps exactly that
segment and the next element. -/
theorem take_length_succ_append {α : Type} (l₁ : List α) (x : α) (l₂ : List α) :
    (l₁ ++ x :: l₂).take (l₁.length + 1) = l₁ ++ [x] := by
  induction l₁ with
  | nil => simp
  | cons a l ih => simp [List.take, ih]

/-- C5: scan_for_datafeed_folders returns exactly the duplicate-free,
sorted list of prefixes obtained by truncating each blob name at its
first path segment equal to datafeed (case-insensitively) with a
trailing slash appended; names with no such segment contribute
nothing. -/
theorem scan_for_datafeed_folders_correct (blob_names : List String) :
    List.Sorted strLe (DatafeedScanner.scan_for_datafeed_folders blob_names) ∧
    (DatafeedScanner.scan_for_datafeed_folders blob_names).Nodup ∧
    (∀ s, s ∈ DatafeedScanner.scan_for_datafeed_folders blob_names ↔
      ∃ n ∈ blob_names, DatafeedScanner.datafeedFolderOf n = some s) ∧
    (∀ name pre x post, splitOnChar '/' name = pre ++ x :: post →
      toLowerStr x = "datafeed" → (∀ y ∈ pre, toLowerStr y ≠ "datafeed") →
      DatafeedScanner.datafeedFolderOf name =
        some (strConcat (joinSlash (pre ++ [x])) "/")) ∧
    (∀ name, (∀ part ∈ splitOnChar '/' name, toLowerStr part ≠ "datafeed") →
      DatafeedScanner.datafeedFolderOf name = none) := by
  refine ⟨?_, ?_, ?_, ?_, ?_⟩
  · exact List.sorted_insertionSort strLe _
  · exact ((List.perm_insertionSort strLe _).nodup_iff).mpr (List.nodup_dedup _)
  · intro s
    rw [DatafeedScanner.scan_for_datafeed_folders,
      (List.perm_insertionSort strLe _).mem_iff, List.mem_dedup,
      List.mem_filterMap]
  · intro name pre x post hsplit hx hpre
    have hfind := findIdx?_first_hit (fun part => toLowerStr part == "datafeed")
      pre x post (by simp [hx]) (fun y hy => by simpa using hpre y hy) 0
    rw [DatafeedScanner.datafeedFolderOf]
    simp only [hsplit, hfind, Nat.zero_add, take_length_succ_append]
  · intro name hnone
    have hfind := findIdx?_no_hit (fun part => toLowerStr part == "datafeed")
      (splitOnChar '/' name) (fun y hy => by simpa using hnone y hy) 0
    rw [DatafeedScanner.datafeedFolderOf]
    simp only [hfind]

/-- Witness for C5: evaluate the scan on a concrete listing and check
the first-segment characterization at a concrete blob name. -/
theorem scan_for_datafeed_folders_correct_witness :
    DatafeedScanner.datafeedFolderOf "proj/DataFeed/sub/DimManager.xlsx" =
      some "proj/DataFeed/" ∧
    DatafeedScanner.datafeedFolderOf "proj/other/file.txt" = none := by
  have h := scan_for_datafeed_folders_correct
    ["proj/DataFeed/sub/DimManager.xlsx", "proj/other/file.txt"]
  refine ⟨?_, ?_⟩
  · have h4 := h.2.2.2.1 "proj/DataFeed/sub/DimManager.xlsx"
      ["proj"] "DataFeed" ["sub", "DimManager.xlsx"] (by decide) (by decide)
      (by decide)
    rw [h4]
    decide
  · exact h.2.2.2.2 "proj/other/file.txt" (by decide)

/-- C3 counterexample: an SDK exception during the blob listing of
scan_for_datafeed_folders is caught and a message printed, but the
method returns an empty list and the program continues; it does not
exit, contradicting the claim at this concrete input. -/
theorem sdk_error_exit_counterexample :
    DatafeedScanner.scan_for_datafeed_folders_run
      (Except.error { message := "listing failed" }) =
      Outcome.returned true [] ∧
    (∀ (b : Bool) (c : Nat),
      DatafeedScanner.scan_for_datafeed_folders_run
        (Except.error { message := "listing failed" }) ≠
        Outcome.exited b c) := by
  refine ⟨rfl, ?_⟩
  intro b c
  simp [DatafeedScanner.scan_for_datafeed_folders_run]

/-- C3 (amended): every SDK-specific exception raised during a blob
listing or scanning operation is caught and a message printed, but the
listing and scanning operations (scan_for_datafeed_folders,
create_dataframe) return an empty result and continue; only the
connection setup in AzureFolderDataFrame's constructor exits, with
code 1. -/
theorem sdk_error_handling (e : AzureError) :
    DatafeedScanner.scan_for_datafeed_folders_run (Except.error e) =
      Outcome.returned true [] ∧
    DfInsideFolder.create_dataframe (Except.error e) =
      Outcome.returned true [] ∧
    DfInsideFolder.init_outcome (Except.error e) = Outcome.exited true 1 :=
  ⟨rfl, rfl, rfl⟩

/-- Witness for the amended C3 theorem at a concrete exception. -/
theorem sdk_error_handling_witness :
    DatafeedScanner.scan_for_datafeed_folders_run
      (Except.error { message := "boom" }) = Outcome.returned true [] ∧
    DfInsideFolder.create_dataframe
      (Except.error { message := "boom" }) = Outcome.returned true [] ∧
    DfInsideFolder.init_outcome
      (Except.error { message := "boom" }) = Outcome.exited true 1 :=
  sdk_error_handling { message := "boom" }

/-- C10: get_token is deterministic and ignores its inputs: any two
calls on the same credential instance return the AccessToken built from
the stored access_token and expires_on; when no expires_on is supplied
at construction it defaults to one hour after the construction
timestamp. -/
theorem get_token_deterministic (cred : AuthHelper.UserTokenCredential)
    (scopes1 scopes2 : List String)
    (kwargs1 kwargs2 : List (String × String))
    (tok : String) (now_ts : Int) :
    AuthHelper.get_token cred scopes1 kwargs1 =
      AuthHelper.get_token cred scopes2 kwargs2 ∧
    AuthHelper.get_token cred scopes1 kwargs1 =
      { token := cred.access_token, expires_on := cred.expires_on } ∧
    (AuthHelper.mkUserTokenCredential tok none now_ts).expires_on =
      now_ts + 3600 ∧
    (∀ e : Int,
      (AuthHelper.mkUserTokenCredential tok (some e) now_ts).expires_on = e) :=
  ⟨rfl, rfl, rfl, fun _ => rfl⟩

/-- The loop keeps a blob exactly when the claim's selection predicate
holds of it. -/
theorem search_keeps_iff (term : String) (mode : SearchBlob.SearchMode)
    (tf : SearchBlob.TypeFilter) (b : Blob) :
    (SearchBlob.modeMatches mode term (SearchBlob.filename b) &&
      SearchBlob.typeKeeps tf b) = true ↔
    SearchBlob.claimSelects term mode tf b := by
  have hslash : ("/" : String).data = ['/'] := rfl
  have hfolder : SearchBlob.is_folder b = true ↔
      b.size = 0 ∧ ∃ first : List Char, b.name.data = first ++ ['/'] := by
    rw [SearchBlob.is_folder, Bool.and_eq_true, beq_iff_eq, endsWithStr_iff,
      hslash]
  cases mode <;> cases tf <;>
    simp [SearchBlob.claimSelects, SearchBlob.modeMatches,
      SearchBlob.typeKeeps, startsWithStr, frontMatches_iff, hasSubstr_iff,
      ← hfolder, Bool.not_eq_true]

/-- C6: search_blobs selects exactly the blobs whose final path segment
matches the term under the chosen mode (case-insensitive starts-with or
contains) and whose kind matches the filter, a folder being a blob of
size 0 whose name ends with a slash; results preserve listing order. -/
theorem search_blobs_correct (blobs : List Blob) (term : String)
    (mode : SearchBlob.SearchMode) (tf : SearchBlob.TypeFilter) :
    (∀ r, r ∈ SearchBlob.search_blobs blobs term mode tf ↔
      ∃ b ∈ blobs, SearchBlob.claimSelects term mode tf b ∧
        r = SearchBlob.toSearchResult b) ∧
    ((SearchBlob.search_blobs blobs term mode tf).map
      (fun r => r.path)).Sublist (blobs.map (fun b => b.name)) ∧
    (∀ b : Blob, SearchBlob.is_folder b = true ↔
      b.size = 0 ∧ ∃ first : List Char, b.name.data = first ++ ['/']) := by
  refine ⟨?_, ?_, ?_⟩
  · intro r
    rw [SearchBlob.search_blobs]
    simp only [List.mem_map, List.mem_filter]
    constructor
    · rintro ⟨b, ⟨hb, hsel⟩, rfl⟩
      exact ⟨b, hb, (search_keeps_iff term mode tf b).mp hsel, rfl⟩
    · rintro ⟨b, hb, hsel, rfl⟩
      exact ⟨b, ⟨hb, (search_keeps_iff term mode tf b).mpr hsel⟩, rfl⟩
  · rw [SearchBlob.search_blobs, List.map_map]
    exact List.Sublist.map _ (List.filter_sublist _)
  · intro b
    rw [SearchBlob.is_folder, Bool.and_eq_true, beq_iff_eq, endsWithStr_iff]

/-- Membership in a left fold of intersections. -/
theorem foldl_inter_mem {α : Type} [DecidableEq α] (c : α) (s : Finset α)
    (rest : List (Finset α)) :
    c ∈ rest.foldl (fun a b => a ∩ b) s ↔ c ∈ s ∧ ∀ x ∈ rest, c ∈ x := by
  induction rest generalizing s with
  | nil => simp
  | cons y ys ih => simp [ih, Finset.mem_inter, and_assoc]

/-- Membership in a left fold of unions. -/
theorem foldl_union_mem {α : Type} [DecidableEq α] (c : α) (s : Finset α)
    (rest : List (Finset α)) :
    c ∈ rest.foldl (fun a b => a ∪ b) s ↔ c ∈ s ∨ ∃ x ∈ rest, c ∈ x := by
  induction rest generalizing s with
  | nil => simp
  | cons y ys ih => simp [ih, Finset.mem_union, or_assoc]

/-- C9: validate_table_columns classifies a table as consistent iff it
has exactly one instance or the intersection of its instances' column
sets equals their union; per instance of an inconsistent table, missing
is the common (intersection) columns minus its own and extra is its own
minus the common columns; rows whose Path starts with
0000_test_parquet/ are excluded beforehand. -/
theorem validate_table_columns_correct (df : List ValidateTableColumns.VRow)
    (t c : String) (r : ValidateTableColumns.VRow) :
    (ValidateTableColumns.isConsistentTable df t = true ↔
      (ValidateTableColumns.instancesOf df t).length = 1 ∨
      ValidateTableColumns.common_columns df t =
        ValidateTableColumns.all_columns df t) ∧
    (c ∈ ValidateTableColumns.common_columns df t ↔
      ValidateTableColumns.instanceSets df t ≠ [] ∧
      ∀ s ∈ ValidateTableColumns.instanceSets df t, c ∈ s) ∧
    (c ∈ ValidateTableColumns.all_columns df t ↔
      ∃ s ∈ ValidateTableColumns.instanceSets df t, c ∈ s) ∧
    (c ∈ ValidateTableColumns.instanceMissing df t r ↔
      c ∈ ValidateTableColumns.common_columns df t ∧
      c ∉ ValidateTableColumns.parse_columns r.columns) ∧
    (c ∈ ValidateTableColumns.instanceExtra df t r ↔
      c ∈ ValidateTableColumns.parse_columns r.columns ∧
      c ∉ ValidateTableColumns.common_columns df t) ∧
    (r ∈ ValidateTableColumns.filteredRows df ↔
      r ∈ df ∧ ¬∃ rest : List Char,
        r.path.data = ("0000_test_parquet/" : String).data ++ rest) := by
  refine ⟨?_, ?_, ?_, ?_, ?_, ?_⟩
  · simp [ValidateTableColumns.isConsistentTable]
  · rw [ValidateTableColumns.common_columns]
    split
    · rename_i heq
      simp [heq]
    · rename_i s rest heq
      rw [foldl_inter_mem, heq]
      simp [List.forall_mem_cons]
  · rw [ValidateTableColumns.all_columns]
    split
    · rename_i heq
      simp [heq]
    · rename_i s rest heq
      rw [foldl_union_mem, heq]
      simp
  · simp [ValidateTableColumns.instanceMissing]
  · simp [ValidateTableColumns.instanceExtra]
  · rw [ValidateTableColumns.filteredRows, List.mem_filter]
    have hiff : (startsWithStr r.path "0000_test_parquet/" = false) ↔
        ¬∃ rest : List Char,
          r.path.data = ("0000_test_parquet/" : String).data ++ rest := by
      rw [Bool.eq_false_iff, Ne, startsWithStr, frontMatches_iff]
    rw [Bool.not_eq_true', hiff]

/-- C4: the scanner's record builders write exactly the five per-column
fields and no Columns field, while validate_table_columns derives a
row's column set only from its single Columns cell (so it never reads
Column_Name). -/
theorem csv_schema_divergence
    (datafeed_path sheet_name table_name column_name fname col : String)
    (row1 row2 : String → Option String) :
    ((DatafeedScanner.excelRecord datafeed_path sheet_name table_name
        column_name).map Prod.fst =
      ["Path", "Source_Type", "Sheet_Name", "Table_Name", "Column_Name"] ∧
      "Columns" ∉ (DatafeedScanner.excelRecord datafeed_path sheet_name
        table_name column_name).map Prod.fst) ∧
    ((DatafeedScanner.parquetRecord datafeed_path fname col).map Prod.fst =
      ["Path", "Source_Type", "Sheet_Name", "Table_Name", "Column_Name"] ∧
      "Columns" ∉ (DatafeedScanner.parquetRecord datafeed_path fname
        col).map Prod.fst) ∧
    (row1 "Columns" = row2 "Columns" →
      ValidateTableColumns.rowColumnSet row1 =
        ValidateTableColumns.rowColumnSet row2) ∧
    (∀ v : Option String,
      ValidateTableColumns.rowColumnSet
        (fun fld => if fld = "Column_Name" then v else row1 fld) =
      ValidateTableColumns.rowColumnSet row1) := by
  refine ⟨⟨rfl, ?_⟩, ⟨rfl, ?_⟩, ?_, ?_⟩
  · intro hmem
    rw [show (DatafeedScanner.excelRecord datafeed_path sheet_name table_name
        column_name).map Prod.fst =
      ["Path", "Source_Type", "Sheet_Name", "Table_Name", "Column_Name"]
      from rfl] at hmem
    exact absurd hmem (by decide)
  · intro hmem
    rw [show (DatafeedScanner.parquetRecord datafeed_path fname col).map
        Prod.fst =
      ["Path", "Source_Type", "Sheet_Name", "Table_Name", "Column_Name"]
      from rfl] at hmem
    exact absurd hmem (by decide)
  · intro h
    simp [ValidateTableColumns.rowColumnSet, h]
  · intro v
    have hcell : (fun fld => if fld = "Column_Name" then v else row1 fld)
        "Columns" = row1 "Columns" := if_neg (by decide)
    simp [ValidateTableColumns.rowColumnSet, hcell]

/-- Witness for C4 at concrete rows: two rows with the same Columns
cell but different Column_Name cells parse to the same column set. -/
theorem csv_schema_divergence_witness :
    ValidateTableColumns.rowColumnSet (fun _ => some "a, b") =
      ValidateTableColumns.rowColumnSet
        (fun fld => if fld = "Columns" then some "a, b" else none) :=
  (csv_schema_divergence "p" "s" "t" "c" "f" "c2" (fun _ => some "a, b")
    (fun fld => if fld = "Columns" then some "a, b" else none)).2.2.1
    (by decide)

/-- Every record of `analyze_excel_file_with_tables` carries exactly
the five fields, in order. -/
theorem excelRecords_shape (sheets : List DatafeedScanner.Sheet)
    (datafeed_path : String) (r : List (String × String))
    (hr : r ∈ DatafeedScanner.analyze_excel_file_with_tables sheets
      datafeed_path) :
    r.map Prod.fst =
      ["Path", "Source_Type", "Sheet_Name", "Table_Name", "Column_Name"] := by
  simp only [DatafeedScanner.analyze_excel_file_with_tables,
    List.mem_flatMap, List.mem_map] at hr
  obtain ⟨ws, _, tbl, _, cn, _, rfl⟩ := hr
  rfl

/-- Every record of `analyze_parquet_file` carries exactly the five
fields, in order. -/
theorem parquetRecords_shape (download : Option (List String))
    (blob_name datafeed_path : String) (r : List (String × String))
    (hr : r ∈ DatafeedScanner.analyze_parquet_file download blob_name
      datafeed_path) :
    r.map Prod.fst =
      ["Path", "Source_Type", "Sheet_Name", "Table_Name", "Column_Name"] := by
  cases download with
  | none => simp [DatafeedScanner.analyze_parquet_file] at hr
  | some cols =>
    simp only [DatafeedScanner.analyze_parquet_file, List.mem_map] at hr
    obtain ⟨cn, _, rfl⟩ := hr
    rfl

/-- C7: every metadata record produced by the Excel and Parquet
analysis functions has exactly the five fields Path, Source_Type,
Sheet_Name, Table_Name, Column_Name, and this shape is preserved by the
record accumulation of generate_report through to the CSV export. -/
theorem record_shape_invariant (sheets : List DatafeedScanner.Sheet)
    (datafeed_path : String) (download : Option (List String))
    (blob_name : String) (folders : List DatafeedScanner.FolderData)
    (r : List (String × String)) :
    (r ∈ DatafeedScanner.analyze_excel_file_with_tables sheets
        datafeed_path →
      r.map Prod.fst =
        ["Path", "Source_Type", "Sheet_Name", "Table_Name", "Column_Name"]) ∧
    (r ∈ DatafeedScanner.analyze_parquet_file download blob_name
        datafeed_path →
      r.map Prod.fst =
        ["Path", "Source_Type", "Sheet_Name", "Table_Name", "Column_Name"]) ∧
    (r ∈ DatafeedScanner.generate_report_rows folders →
      r.map Prod.fst =
        ["Path", "Source_Type", "Sheet_Name", "Table_Name", "Column_Name"]) := by
  refine ⟨excelRecords_shape sheets datafeed_path r,
    parquetRecords_shape download blob_name datafeed_path r, ?_⟩
  intro hr
  simp only [DatafeedScanner.generate_report_rows, List.mem_flatMap,
    List.mem_append] at hr
  obtain ⟨f, _, hr | hr⟩ := hr
  · cases hx : f.excel with
    | none => rw [hx] at hr; simp at hr
    | some sheets2 =>
      rw [hx] at hr
      exact excelRecords_shape sheets2 f.path r hr
  · obtain ⟨pq, _, hr⟩ := hr
    exact parquetRecords_shape pq.columns pq.blob_name f.path r hr

/-- Containment in the middle string is preserved by concatenation on
both sides. -/
theorem containsText_mid (a m t needle : String) (h : containsText m needle) :
    containsText (strConcat (strConcat a m) t) needle := by
  obtain ⟨pre, post, hm⟩ := h
  refine ⟨a.data ++ pre, post ++ t.data, ?_⟩
  show (a.data ++ m.data) ++ t.data = _
  rw [hm]
  simp [List.append_assoc]

/-- Witness for C7 at a concrete folder listing with one Excel table
and one parquet file. -/
theorem record_shape_invariant_witness :
    (DatafeedScanner.excelRecord "proj/Datafeed" "Sheet1" "T1" "c1").map
        Prod.fst =
      ["Path", "Source_Type", "Sheet_Name", "Table_Name", "Column_Name"] := by
  refine (record_shape_invariant
    [DatafeedScanner.Sheet.mk "Sheet1"
      [DatafeedScanner.ExcelTable.mk "T1" [some "c1"]]]
    "proj/Datafeed" (some ["pc"]) "proj/Datafeed/x.parquet"
    [DatafeedScanner.FolderData.mk "proj/Datafeed" none
      [DatafeedScanner.ParquetDownload.mk "proj/Datafeed/x.parquet"
        (some ["pc"])]]
    (DatafeedScanner.excelRecord "proj/Datafeed" "Sheet1" "T1" "c1")).1 ?_
  decide

/-- C8: the HTML report of check_table_consistency.py contains the
status box texts Consistency Check: PASSED and No table name duplicates
found, whatever the duplicate-detection pass over the same data
found. -/
theorem status_box_text_unconditional (df : List CsvRow) (b : Bool)
    (h : CheckTableConsistency.inconsistencies_found df = b) :
    containsText (CheckTableConsistency.html_content df)
      "Consistency Check: PASSED" ∧
    containsText (CheckTableConsistency.html_content df)
      "No table name duplicates found" := by
  clear h
  constructor
  · exact containsText_mid _ _ _ _
      ⟨("<div class=\"section\"><div class=\"status-box\"><h3>✅ " :
          String).data,
        ("</h3><p>No table name duplicates found. Each table appears only once per path.</p></div></div>" :
          String).data, rfl⟩
  · exact containsText_mid _ _ _ _
      ⟨("<div class=\"section\"><div class=\"status-box\"><h3>✅ Consistency Check: PASSED</h3><p>" :
          String).data,
        (". Each table appears only once per path.</p></div></div>" :
          String).data, rfl⟩

/-- Witness for C8 at a concrete dataframe in which some table name
does appear twice in one path group. -/
theorem status_box_text_unconditional_witness :
    containsText (CheckTableConsistency.html_content
      [{ path := "p", source_type := "Excel", sheet_name := "s",
         table_name := "T1", column_name := some "c1" },
       { path := "p", source_type := "Excel", sheet_name := "s",
         table_name := "T1", column_name := some "c2" }])
      "Consistency Check: PASSED" ∧
    containsText (CheckTableConsistency.html_content
      [{ path := "p", source_type := "Excel", sheet_name := "s",
         table_name := "T1", column_name := some "c1" },
       { path := "p", source_type := "Excel", sheet_name := "s",
         table_name := "T1", column_name := some "c2" }])
      "No table name duplicates found" :=
  status_box_text_unconditional _ true (by decide)
